import Mathlib

/-!
Shallow embedding of the reinforcement-learning orchestration layer of the
ai-pacman repository (src/backend/api.py) together with the parts of the
learning core that api.py drives (value iteration, the tabular Q-learning
update, the Pacman game runner).  api.py is the only file under src/; the
agent classes it imports (valueIterationAgents.py, qlearningAgents.py,
gridworld.py, pacman.py) are external to src/, so those pieces are modelled
from the specification, as marked on each definition.
-/

namespace AiPacman

/-- A gridworld state: an (x, y) cell or the distinguished terminal sentinel
(gridworld's `TERMINAL_STATE`).  api.py compares states against
`gw.grid.terminalState`. -/
inductive GwState where
  | cell (x y : Int)
  | terminal
deriving DecidableEq, Repr

/-- Actions are the direction strings of the gridworld
(north, south, east, west, exit). -/
abbrev Action := String

/-- A tabular Q-table: (state, action) → value, default 0 for unseen pairs. -/
abbrev QTable := GwState → Action → ℚ

/-- Modelled from the spec: the all-zero Q-table a fresh `QLearningAgent`
starts from (qlearningAgents.py / util.py are not under src/; the spec's
Q-table has "default 0 for unseen pairs"). -/
def initialQ : QTable := fun _ _ => 0

/-- Maximum of a rational list, Python's `max(xs)` on a nonempty list; the
empty case returns 0, matching the spec's convention that a max over an empty
legal-action set is 0. -/
def listMax : List ℚ → ℚ
  | [] => 0
  | x :: xs => xs.foldl max x

/-- Modelled from the spec: `QLearningAgent.update` lives in
qlearningAgents.py, which is not under src/.  Spec §4.3:
`Q(s,a) ← Q(s,a) + α·[reward + γ·max over legal actions in nextState of
Q(nextState, a') − Q(s,a)]`, with the max over an empty legal-action set
defined as 0. -/
def qUpdate (actionsOf : GwState → List Action) (α γ : ℚ) (q : QTable)
    (s : GwState) (a : Action) (s' : GwState) (r : ℚ) : QTable :=
  let nextVal := listMax ((actionsOf s').map (q s'))
  fun t b => if t = s ∧ b = a then q s a + α * (r + γ * nextVal - q s a) else q t b

/-- Outcome of one run of the api.py Q-learning episode loop, observed with a
fuel budget: either the loop broke out of `while True` (with the final state,
step counter, accumulated reward and Q-table), or it was still iterating when
the fuel ran out. -/
inductive EpisodeOutcome where
  | done (state : GwState) (steps : Nat) (totalReward : ℚ) (q : QTable)
  | stillRunning

/-- The episode loop of `start_qlearning` (api.py lines 276-294), translated
statement by statement.  The external collaborators are passed as oracles:
`actionsOf` is `gw.getPossibleActions`, `getAct` is `agent.getAction` at a
given step index (its ε-greedy randomness makes it an oracle), and `doAct` is
`env.doAction` at a given step index for the chosen action (its transition
randomness makes it an oracle).  The loop body:
`if not actions: break`; `if action is None: break`; do the step, run the
agent update, add the reward, increment the step counter, advance the state;
`if state == terminalState or steps > 100: break` — the 100 is the literal
hard-coded in api.py line 293. -/
def qlearnLoop (actionsOf : GwState → List Action)
    (getAct : Nat → GwState → Option Action)
    (doAct : Nat → Action → GwState × ℚ) (α γ : ℚ) :
    GwState → Nat → ℚ → QTable → Nat → EpisodeOutcome
  | _, _, _, _, 0 => .stillRunning
  | state, steps, tot, q, fuel + 1 =>
    match actionsOf state with
    | [] => .done state steps tot q
    | _ :: _ =>
      match getAct steps state with
      | none => .done state steps tot q
      | some a =>
        let res := doAct steps a
        let q' := qUpdate actionsOf α γ q state a res.1 res.2
        if res.1 = GwState.terminal ∨ steps + 1 > 100 then
          .done res.1 (steps + 1) (tot + res.2) q'
        else
          qlearnLoop actionsOf getAct doAct α γ res.1 (steps + 1) (tot + res.2) q' fuel

/-- The Q-learning episode loop of `compare_algorithms` (api.py lines
523-531), translated statement by statement with the same oracles as
`qlearnLoop`.  Its guard is `while state != gw.grid.terminalState:` — unlike
`start_qlearning`, the body keeps no step counter and checks no step cap; the
`steps` argument below only indexes the oracles.  Returns the final state and
Q-table when the loop exits, or `none` when the fuel is exhausted while the
loop is still iterating. -/
def compareLoop (actionsOf : GwState → List Action)
    (getAct : Nat → GwState → Option Action)
    (doAct : Nat → Action → GwState × ℚ) (α γ : ℚ) :
    GwState → Nat → QTable → Nat → Option (GwState × QTable)
  | _, _, _, 0 => none
  | state, steps, q, fuel + 1 =>
    if state = GwState.terminal then some (state, q)
    else
      match getAct steps state with
      | none => some (state, q)
      | some a =>
        let res := doAct steps a
        compareLoop actionsOf getAct doAct α γ res.1 (steps + 1)
          (qUpdate actionsOf α γ q state a res.1 res.2) fuel

/-- The training-history sampling modulus of `start_qlearning` (api.py line
300): `max(1, episodes // 20)`. -/
def sampleModulus (episodes : Nat) : Nat := max 1 (episodes / 20)

/-- Whether episode index `ep` is recorded in the training history (api.py
line 300): `episode % max(1, episodes // 20) == 0`. -/
def recordEpisode (episodes ep : Nat) : Bool := ep % sampleModulus episodes == 0

/-- The episode indices stored in `results` over a whole training run:
the loop `for episode in range(episodes)` appends a summary exactly when
`recordEpisode` holds (api.py lines 270, 300-305). -/
def trainingHistoryIndices (episodes : Nat) : List Nat :=
  (List.range episodes).filter (recordEpisode episodes)

/-- Whether the api.py episode loop broke out of its `while True` within the
observed fuel. -/
def episodeDone : EpisodeOutcome → Bool
  | .done _ _ _ _ => true
  | .stillRunning => false

/-- The final value of the `steps` counter when the episode loop broke out
(0 when it was still running). -/
def episodeSteps : EpisodeOutcome → Nat
  | .done _ n _ _ => n
  | .stillRunning => 0

/-- Modelled from the spec: the Environment Model contract of §4.1 (the
concrete `Gridworld` class lives in gridworld.py, not under src/).  It
carries the state enumeration `getStates`, the per-state legal actions
`getPossibleActions`, the transition distribution
`getTransitionStatesAndProbs`, the reward function `getReward`, and the
`noise` / `livingReward` knobs. -/
structure Gridworld where
  states : List GwState
  actions : GwState → List Action
  transitions : GwState → Action → List (GwState × ℚ)
  reward : GwState → Action → GwState → ℚ
  noise : ℚ
  livingReward : ℚ

/-- Modelled from the spec: the one-step lookahead Q-value of
`ValueIterationAgent.getQValue` (valueIterationAgents.py is not under src/).
Spec §4.2: `Σ over (s', p) in transitions(s, a) of p · (reward(s,a,s') + γ·V(s'))`. -/
def bellmanQ (gw : Gridworld) (γ : ℚ) (V : GwState → ℚ) (s : GwState)
    (a : Action) : ℚ :=
  ((gw.transitions s a).map (fun t => t.2 * (gw.reward s a t.1 + γ * V t.1))).sum

/-- Modelled from the spec: the Bellman optimality backup for a single state
(§4.2, valueIterationAgents.py is not under src/): `V'(s) = max over legal
actions a of bellmanQ`, and states with no legal actions keep value 0. -/
def bellmanV (gw : Gridworld) (γ : ℚ) (V : GwState → ℚ) (s : GwState) : ℚ :=
  listMax ((gw.actions s).map (bellmanQ gw γ V s))

/-- Modelled from the spec: lookup in an association-list value table,
default 0 for absent states (util.Counter, not under src/; the spec's value
table is "default 0 before computation"). -/
def lookupV (tbl : List (GwState × ℚ)) (s : GwState) : ℚ :=
  match tbl.find? (fun p => p.1 = s) with
  | some p => p.2
  | none => 0

/-- Modelled from the spec: one synchronous sweep of value iteration over the
states in enumeration order `order` (§4.2, valueIterationAgents.py is not
under src/): the new table is built for the whole sweep from the old `V` only
(batch update, not in-place). -/
def sweep (gw : Gridworld) (γ : ℚ) (order : List GwState) (V : GwState → ℚ) :
    List (GwState × ℚ) :=
  order.map (fun s => (s, bellmanV gw γ V s))

/-- Modelled from the spec: k synchronous sweeps of value iteration from the
all-zero initial table (§4.2, valueIterationAgents.py is not under src/),
parameterized by the state enumeration order used within each sweep. -/
def viIterate (gw : Gridworld) (γ : ℚ) (order : List GwState) : Nat → List (GwState × ℚ)
  | 0 => []
  | k + 1 => sweep gw γ order (lookupV (viIterate gw γ order k))

/-- Modelled from the spec: the value function produced by
`ValueIterationAgent(gw, discount, iterations)` (§4.2, not under src/): the
table after `k` sweeps, read with default 0. -/
def viValue (gw : Gridworld) (γ : ℚ) (order : List GwState) (k : Nat)
    (s : GwState) : ℚ :=
  lookupV (viIterate gw γ order k) s

/-- Modelled from the spec: the first-encountered argmax over an action list
used by both agents' greedy-action queries (§4.2 / §4.3, the agent files are
not under src/: ties broken by the first-encountered action; none if the
list is empty). -/
def argmaxFirst (f : Action → ℚ) : List Action → Option Action
  | [] => none
  | a :: as =>
    match argmaxFirst f as with
    | none => some a
    | some b => if f b > f a then some b else some a

/-- Modelled from the spec: `ValueIterationAgent.getAction` (§4.2, not under
src/): the argmax action over the one-step-lookahead Q-values, `none` when
the state has no legal actions. -/
def viGetAction (gw : Gridworld) (γ : ℚ) (order : List GwState) (k : Nat)
    (s : GwState) : Option Action :=
  argmaxFirst (bellmanQ gw γ (viValue gw γ order k) s) (gw.actions s)

/-- Modelled from the spec: `QLearningAgent.getPolicy` (§4.3,
qlearningAgents.py is not under src/): the greedy action of the final
Q-table, ties broken by the first-encountered action, `none` when the state
has no legal actions. -/
def qGetPolicy (actionsOf : GwState → List Action) (q : QTable) (s : GwState) :
    Option Action :=
  argmaxFirst (q s) (actionsOf s)

/-- Python's `str` of a gridworld state: `str((x, y))` prints as "(x, y)",
and `str('TERMINAL_STATE')` is the sentinel itself.  api.py uses `str(k)` /
`str(state)` as the transport keys (lines 212, 225, 318, 331). -/
def stateToString : GwState → String
  | .cell x y => "(" ++ toString x ++ ", " ++ toString y ++ ")"
  | .terminal => "TERMINAL_STATE"

/-- A structured failure result as api.py produces it: every early error
return is a jsonify of an error message paired with an HTTP status code —
the status code is the error kind and the body carries the message.  The constructor has no other
fields: an error response carries no tables, so no partial results can ride
along with it. -/
structure ApiError where
  status : Nat
  message : String
deriving DecidableEq, Repr

/-- The request body of POST /api/value-iteration as read by
`run_value_iteration` (api.py lines 182-187): these are exactly the keys the
handler reads from `request.json`; any other keys a caller sends are never
read. -/
structure VIRequest where
  grid : String
  iterations : Nat
  discount : ℚ
  noise : ℚ
  livingReward : ℚ

/-- The request body of POST /api/qlearning/start as read by
`start_qlearning` (api.py lines 238-245): exactly the keys the handler reads;
in particular there is no step-cap key. -/
structure QLRequest where
  grid : String
  episodes : Nat
  epsilon : ℚ
  alpha : ℚ
  discount : ℚ
  noise : ℚ
  livingReward : ℚ

/-- The request body of POST /api/pacman/run.  `run_pacman_game` (api.py
lines 342-349) reads exactly the first seven fields; `catchExceptions` stands
for a caller's attempt to configure the failure policy through the request
body — `request.json` may carry the key, but no line of the handler ever
reads it. -/
structure PacmanRequest where
  layout : String
  agent : String
  numTraining : Nat
  numGames : Nat
  epsilon : ℚ
  alpha : ℚ
  discount : ℚ
  catchExceptions : Option Bool

/-- The request body of POST /api/demo/compare as read by
`compare_algorithms` (api.py lines 475-478). -/
structure CompareRequest where
  grid : String
  iterations : Nat
  episodes : Nat

/-- The table the grid-name lookups draw from: the getattr over the gridworld
module (api.py lines 191, 249, 487) resolves get<grid_name> to a constructor
or to None.  gridworld.py is not under src/, so the available
constructors are kept abstract as a function from names to an optional
constructor; a constructor takes the noise and livingReward that api.py
installs with `setNoise` / `setLivingReward` right after construction. -/
abbrev GridTable := String → Option (ℚ → ℚ → Gridworld)

/-- The `layout.getLayout` lookup of `run_pacman_game`: layout files are not
under src/, so the resolution is kept abstract; the handler only tests the
result against None. -/
abbrev LayoutTable := String → Option Unit

/-- The non-terminal states api.py enumerates in every result-building loop:
`for state in gw.getStates(): if state != gw.grid.terminalState:`. -/
def nonTerminalStates (gw : Gridworld) : List GwState :=
  gw.states.filter (fun s => s ≠ GwState.terminal)

/-- The serialization api.py applies to a state-keyed table before returning
it: the dict comprehension mapping str(k) to v over the items of `values`
(lines 225, 331). -/
def serializeValues (vals : List (GwState × ℚ)) : List (String × ℚ) :=
  vals.map (fun p => (stateToString p.1, p.2))

/-- Lookup in the tuple-keyed internal Q-value dict, `(s, action) in q_values`
followed by `q_values[(s, action)]`. -/
def lookupQ (tbl : List ((GwState × Action) × ℚ)) (s : GwState) (a : Action) :
    Option ℚ :=
  (tbl.find? (fun p => p.1 = (s, a))).map (fun p => p.2)

/-- The per-state `qValues` maps of `serialize_gridworld_state` (api.py lines
104-108): for each non-terminal state, a map keyed by the action strings of
`getPossibleActions`, holding the entries present in the tuple-keyed internal
dict. -/
def serializeQValues (gw : Gridworld) (tbl : List ((GwState × Action) × ℚ)) :
    List (GwState × List (Action × ℚ)) :=
  (nonTerminalStates gw).map (fun s =>
    (s, (gw.actions s).filterMap (fun a => (lookupQ tbl s a).map (fun v => (a, v)))))

/-- The internal (state-keyed) value table `run_value_iteration` collects
(api.py lines 207-209): `values[state] = agent.getValue(state)` for each
non-terminal state. -/
def viValuesInternal (gw : Gridworld) (γ : ℚ) (order : List GwState) (k : Nat) :
    List (GwState × ℚ) :=
  (nonTerminalStates gw).map (fun s => (s, viValue gw γ order k s))

/-- The internal (tuple-keyed) Q-table `run_value_iteration` collects (api.py
lines 214-215): `q_values[(state, action)] = agent.getQValue(state, action)`. -/
def viQValuesInternal (gw : Gridworld) (γ : ℚ) (order : List GwState) (k : Nat) :
    List ((GwState × Action) × ℚ) :=
  (nonTerminalStates gw).flatMap (fun s =>
    (gw.actions s).map (fun a => ((s, a), bellmanQ gw γ (viValue gw γ order k) s a)))

/-- The policy map `run_value_iteration` collects (api.py lines 210-212):
`best_action = agent.getAction(state); if best_action:
policy[str(state)] = best_action` — an entry appears exactly when
`getAction` returned an action. -/
def viPolicy (gw : Gridworld) (γ : ℚ) (order : List GwState) (k : Nat) :
    List (String × Action) :=
  (nonTerminalStates gw).filterMap (fun s =>
    (viGetAction gw γ order k s).map (fun a => (stateToString s, a)))

/-- The JSON body returned by `run_value_iteration` on success (api.py lines
218-229); `gridDataQValues` is the `qValues` portion of `gridData`
(`serialize_gridworld_state`), the only table-shaped part of `gridData` the
serialization claims concern. -/
structure VIResponse where
  grid : String
  iterations : Nat
  discount : ℚ
  noise : ℚ
  livingReward : ℚ
  gridDataQValues : List (GwState × List (Action × ℚ))
  values : List (String × ℚ)
  policy : List (String × Action)

/-- The handler `run_value_iteration` (api.py lines 179-232): resolve the
grid name, on failure return the 404 error immediately (before any
computation); otherwise construct the gridworld with the requested noise and
living reward, run value iteration, and build the response tables.  `order`
is the state enumeration order the external agent uses internally for its
sweeps. -/
def run_value_iteration (gridTable : GridTable) (order : List GwState)
    (req : VIRequest) : Except ApiError VIResponse :=
  match gridTable req.grid with
  | none => .error ⟨404, "Grid " ++ req.grid ++ " not found"⟩
  | some mk =>
    let gw := mk req.noise req.livingReward
    .ok
      { grid := req.grid
      , iterations := req.iterations
      , discount := req.discount
      , noise := req.noise
      , livingReward := req.livingReward
      , gridDataQValues :=
          serializeQValues gw (viQValuesInternal gw req.discount order req.iterations)
      , values := serializeValues (viValuesInternal gw req.discount order req.iterations)
      , policy := viPolicy gw req.discount order req.iterations }

/-- One training episode of `start_qlearning` (api.py lines 271-297): run the
episode loop from the environment's start state with fresh per-episode
counters and return (totalReward, steps, updated Q-table).  The fuel 102
suffices for the loop to reach one of its `break` statements (the hard-coded
cap fires at the latest when the step counter reaches 101), so the
`stillRunning` fallback below is never taken. -/
def qlearnEpisode (actionsOf : GwState → List Action)
    (getAct : Nat → GwState → Option Action)
    (doAct : Nat → Action → GwState × ℚ) (α γ : ℚ) (start : GwState)
    (q : QTable) : ℚ × Nat × QTable :=
  match qlearnLoop actionsOf getAct doAct α γ start 0 0 q 102 with
  | .done _ n r q' => (r, n, q')
  | .stillRunning => (0, 0, q)

/-- The whole training run of `start_qlearning` (api.py lines 269-305):
`for episode in range(episodes)`, run one episode from the start state, and
append the (episode, totalReward, steps) record to `results` exactly when
`episode % max(1, episodes // 20) == 0`.  The oracles take the
episode index first so each episode sees its own randomness.  Returns the
final Q-table and the recorded training history. -/
def qlearnRun (actionsOf : GwState → List Action)
    (getAct : Nat → Nat → GwState → Option Action)
    (doAct : Nat → Nat → Action → GwState × ℚ) (α γ : ℚ) (start : GwState)
    (episodes : Nat) : QTable × List (Nat × ℚ × Nat) :=
  (List.range episodes).foldl
    (fun acc ep =>
      let res := qlearnEpisode actionsOf (getAct ep) (doAct ep) α γ start acc.1
      ( res.2.2
      , if recordEpisode episodes ep then acc.2 ++ [(ep, res.1, res.2.1)] else acc.2))
    (initialQ, [])

/-- The internal (state-keyed) value table `start_qlearning` collects from
the final Q-table (api.py lines 312-317): for each non-terminal state with a
nonempty action set, `values[state] = max(q_vals)`. -/
def qlValuesInternal (gw : Gridworld) (q : QTable) : List (GwState × ℚ) :=
  ((nonTerminalStates gw).filter (fun s => gw.actions s ≠ [])).map
    (fun s => (s, listMax ((gw.actions s).map (q s))))

/-- The internal (tuple-keyed) Q-table `start_qlearning` collects (api.py
lines 320-321). -/
def qlQValuesInternal (gw : Gridworld) (q : QTable) :
    List ((GwState × Action) × ℚ) :=
  ((nonTerminalStates gw).filter (fun s => gw.actions s ≠ [])).flatMap
    (fun s => (gw.actions s).map (fun a => ((s, a), q s a)))

/-- The policy map `start_qlearning` collects (api.py line 318):
`policy[str(state)] = agent.getPolicy(state)`, only for non-terminal states
with a nonempty action set; the stored value is whatever `getPolicy`
returns. -/
def qlPolicy (gw : Gridworld) (q : QTable) : List (String × Option Action) :=
  ((nonTerminalStates gw).filter (fun s => gw.actions s ≠ [])).map
    (fun s => (stateToString s, qGetPolicy gw.actions q s))

/-- The JSON body returned by `start_qlearning` on success (api.py lines
323-333). -/
structure QLResponse where
  grid : String
  episodes : Nat
  epsilon : ℚ
  alpha : ℚ
  discount : ℚ
  trainingHistory : List (Nat × ℚ × Nat)
  gridDataQValues : List (GwState × List (Action × ℚ))
  values : List (String × ℚ)
  policy : List (String × Option Action)

/-- The handler `start_qlearning` (api.py lines 236-336): resolve the grid
name, on failure return the 404 error immediately; otherwise construct the
gridworld, train for the requested number of episodes, and build the
response.  `start` is the environment's start state after `env.reset()`; the
oracles stand for the external agent's ε-greedy draws and the environment's
stochastic transitions. -/
def start_qlearning (gridTable : GridTable)
    (getAct : Nat → Nat → GwState → Option Action)
    (doAct : Nat → Nat → Action → GwState × ℚ) (start : GwState)
    (req : QLRequest) : Except ApiError QLResponse :=
  match gridTable req.grid with
  | none => .error ⟨404, "Grid " ++ req.grid ++ " not found"⟩
  | some mk =>
    let gw := mk req.noise req.livingReward
    let run := qlearnRun gw.actions getAct doAct req.alpha req.discount start req.episodes
    .ok
      { grid := req.grid
      , episodes := req.episodes
      , epsilon := req.epsilon
      , alpha := req.alpha
      , discount := req.discount
      , trainingHistory := run.2
      , gridDataQValues := serializeQValues gw (qlQValuesInternal gw run.1)
      , values := serializeValues (qlValuesInternal gw run.1)
      , policy := qlPolicy gw run.1 }

/-- The argument record `run_pacman_game` passes to `pacman.runGames` (api.py
lines 381-391). -/
structure RunGamesArgs where
  numGames : Nat
  record : Bool
  numTraining : Nat
  catchExceptions : Bool
  timeLimit : Nat
deriving DecidableEq, Repr

/-- The `pacman.runGames` call of `run_pacman_game`, argument for argument
(api.py lines 381-391): `numGames=num_training + num_games, record=False,
numTraining=num_training, catchExceptions=True, timeout=30`.  Every field
other than the game counts is a literal: nothing in the request reaches
them. -/
def runGamesArgsOf (req : PacmanRequest) : RunGamesArgs :=
  { numGames := req.numTraining + req.numGames
  , record := false
  , numTraining := req.numTraining
  , catchExceptions := true
  , timeLimit := 30 }

/-- The per-game data `run_pacman_game` reads off each returned game object:
`g.state.isWin()`, `g.state.isLose()`, `g.state.getScore()`. -/
structure GameResult where
  score : ℚ
  isWin : Bool
  isLose : Bool
deriving DecidableEq, Repr

/-- The evaluation slice of `run_pacman_game` (api.py line 394):
`games[num_training:] if len(games) > num_training else games`. -/
def test_games (games : List GameResult) (numTraining : Nat) : List GameResult :=
  if numTraining < games.length then games.drop numTraining else games

/-- The summary block of `run_pacman_game` (api.py lines 401-405). -/
structure Summary where
  wins : Nat
  losses : Nat
  avgScore : ℚ
deriving DecidableEq, Repr

/-- The summary `run_pacman_game` reports (api.py lines 394-405): wins,
losses and average score over the `test_games` slice, with the average
falling back to 0 when that slice is empty
(`sum(...) / len(test_games) if test_games else 0`). -/
def summaryOf (games : List GameResult) (numTraining : Nat) : Summary :=
  let tg := test_games games numTraining
  { wins := (tg.filter (fun g => g.isWin)).length
  , losses := (tg.filter (fun g => g.isLose)).length
  , avgScore :=
      if tg.isEmpty then 0 else (tg.map (fun g => g.score)).sum / tg.length }

/-- The JSON body returned by `run_pacman_game` on success (api.py lines
395-416): the summary plus one entry per evaluation game. -/
structure PacmanResponse where
  layoutName : String
  agent : String
  numTraining : Nat
  numGames : Nat
  games : List (Nat × GameResult)
  summary : Summary

/-- The handler `run_pacman_game` (api.py lines 339-420): resolve the layout
name, on failure return the 404 error immediately; otherwise call the game
engine with the argument record of `runGamesArgsOf` and report over the
`test_games` slice.  `engine` stands for `pacman.runGames` (pacman.py is not
under src/): the list of games it returns for given arguments. -/
def run_pacman_game (layoutTable : LayoutTable)
    (engine : RunGamesArgs → List GameResult) (req : PacmanRequest) :
    Except ApiError PacmanResponse :=
  match layoutTable req.layout with
  | none => .error ⟨404, "Layout " ++ req.layout ++ " not found"⟩
  | some _ =>
    let games := engine (runGamesArgsOf req)
    let tg := test_games games req.numTraining
    .ok
      { layoutName := req.layout
      , agent := req.agent
      , numTraining := req.numTraining
      , numGames := req.numGames
      , games := (List.range tg.length).zip tg
      , summary := summaryOf games req.numTraining }

/-- Modelled from the spec: the episode-level effect of `pacman.runGames`
with `catchExceptions=True` (pacman.py / game.py are not under src/).  §7:
an engine-level failure during a step "must not corrupt the trainer's
accumulated Q-table/weights for already-completed episodes; the offending
episode is abandoned and the run either stops or continues" — with
catch-and-continue semantics each episode either completes and applies its
learning update, or crashes and is skipped, the run moving on to the
remaining episodes with the tables as they stood. -/
inductive EpisodeRun where
  | ok (update : QTable → QTable)
  | crash

/-- Modelled from the spec: folding the episode list of a training run under
catch-and-continue semantics (§7; pacman.py is not under src/).  A completed
episode applies its update to the accumulated tables; a crashed episode
leaves them untouched and the run continues. -/
def runGamesModel : List EpisodeRun → QTable → QTable
  | [], q => q
  | .ok f :: rest, q => runGamesModel rest (f q)
  | .crash :: rest, q => runGamesModel rest q

/-- The Q-learning training loop of `compare_algorithms` (api.py lines
520-532): `for _ in range(episodes)`, run the unbounded `compareLoop` episode
and keep its final Q-table.  Because that loop carries no step cap, each
episode is observed under a fuel budget; an episode that is still running
when its fuel ends contributes its Q-table as of that point. -/
def compareRun (actionsOf : GwState → List Action)
    (getAct : Nat → Nat → GwState → Option Action)
    (doAct : Nat → Nat → Action → GwState × ℚ) (α γ : ℚ) (start : GwState)
    (episodes fuel : Nat) : QTable :=
  (List.range episodes).foldl
    (fun q ep =>
      match compareLoop actionsOf (getAct ep) (doAct ep) α γ start 0 q fuel with
      | some res => res.2
      | none => q)
    initialQ

/-- The JSON body returned by `compare_algorithms` on success (api.py lines
480-551): the value-iteration block and the Q-learning block, both with
string-keyed value tables and policies. -/
structure CompareResponse where
  grid : String
  viValues : List (String × ℚ)
  viPolicyMap : List (String × Action)
  qlValues : List (String × ℚ)
  qlPolicyMap : List (String × Option Action)

/-- The handler `compare_algorithms` (api.py lines 472-554): resolve the grid
name, on failure return the 404 error immediately; otherwise run value
iteration (discount 0.9) and the Q-learning loop (ε=0.3, α=0.5, γ=0.9) and
build both blocks.  The grid constructor is applied to the gridworld's
default noise and living reward, since this handler never calls `setNoise` /
`setLivingReward`; `defNoise` and `defLiving` stand for those defaults
(gridworld.py is not under src/). -/
def compare_algorithms (gridTable : GridTable) (defNoise defLiving : ℚ)
    (order : List GwState) (getAct : Nat → Nat → GwState → Option Action)
    (doAct : Nat → Nat → Action → GwState × ℚ) (start : GwState) (fuel : Nat)
    (req : CompareRequest) : Except ApiError CompareResponse :=
  match gridTable req.grid with
  | none => .error ⟨404, "Grid " ++ req.grid ++ " not found"⟩
  | some mk =>
    let gw := mk defNoise defLiving
    let q := compareRun gw.actions getAct doAct (1/2) (9/10) start req.episodes fuel
    .ok
      { grid := req.grid
      , viValues := serializeValues (viValuesInternal gw (9/10) order req.iterations)
      , viPolicyMap := viPolicy gw (9/10) order req.iterations
      , qlValues := serializeValues (qlValuesInternal gw q)
      , qlPolicyMap := qlPolicy gw q }

/-! Concrete test fixtures: a tiny gridworld in the shape of the spec §8
scenario (a start cell, one step to an exit cell, a terminal), a degenerate
cell with no legal actions, lookup tables, requests and oracles used to
instantiate the theorems below at concrete inputs. -/

/-- Legal actions of the fixture gridworld: the start cell moves east, the
exit cell exits, every other state (the terminal and the degenerate cell
(9, 9)) has none. -/
def exActions : GwState → List Action
  | .cell 0 0 => ["east"]
  | .cell 1 0 => ["exit"]
  | _ => []

/-- The fixture gridworld: deterministic (noise 0), living reward 0, exit
reward 1. -/
def exGw : Gridworld where
  states := [GwState.cell 0 0, GwState.cell 1 0, GwState.cell 9 9, GwState.terminal]
  actions := exActions
  transitions := fun s a =>
    match s, a with
    | .cell 0 0, "east" => [(GwState.cell 1 0, 1)]
    | .cell 1 0, "exit" => [(GwState.terminal, 1)]
    | _, _ => []
  reward := fun _ a _ => if a = "exit" then 1 else 0
  noise := 0
  livingReward := 0

/-- A grid table resolving only the name BookGrid, to the fixture gridworld. -/
def exGridTable : GridTable :=
  fun name => if name = "BookGrid" then some (fun _ _ => exGw) else none

/-- A grid table with no grids: every name is unknown. -/
def noneGridTable : GridTable := fun _ => none

/-- A layout table with no layouts: every name is unknown. -/
def noneLayoutTable : LayoutTable := fun _ => none

/-- A trace oracle whose every transition lands in the non-terminal start
cell: one of the arbitrarily long non-terminal trajectories the noisy
gridworld can produce. -/
def do1 : Nat → Action → GwState × ℚ := fun _ _ => (GwState.cell 0 0, 0)

/-- An agent oracle that always has an action to propose. -/
def get1 : Nat → GwState → Option Action := fun _ _ => some "north"

/-- An action-set oracle under which no state is action-less. -/
def act1 : GwState → List Action := fun _ => ["north"]

/-- Per-episode version of `get1`. -/
def get2 : Nat → Nat → GwState → Option Action := fun _ _ _ => some "north"

/-- Per-episode version of `do1`. -/
def do2 : Nat → Nat → Action → GwState × ℚ := fun _ _ _ => (GwState.cell 0 0, 0)

/-- A value-iteration request for the fixture grid. -/
def exVIReq : VIRequest :=
  { grid := "BookGrid", iterations := 3, discount := 9/10, noise := 1/5, livingReward := 0 }

/-- A value-iteration request naming a grid no table resolves. -/
def exVIReqBad : VIRequest :=
  { grid := "NoSuchGrid", iterations := 3, discount := 9/10, noise := 1/5, livingReward := 0 }

/-- A Q-learning request naming a grid no table resolves. -/
def exQLReqBad : QLRequest :=
  { grid := "NoSuchGrid", episodes := 5, epsilon := 3/10, alpha := 1/2, discount := 9/10
  , noise := 1/5, livingReward := 0 }

/-- A Pacman request that tries to turn the catch-exceptions policy off
through the request body. -/
def exPacReq : PacmanRequest :=
  { layout := "smallGrid", agent := "PacmanQAgent", numTraining := 10, numGames := 1
  , epsilon := 1/20, alpha := 1/5, discount := 4/5, catchExceptions := some false }

/-- A Pacman request naming a layout no table resolves. -/
def exPacReqBad : PacmanRequest :=
  { layout := "noSuchLayout", agent := "PacmanQAgent", numTraining := 2, numGames := 0
  , epsilon := 1/20, alpha := 1/5, discount := 4/5, catchExceptions := none }

/-- A compare request naming a grid no table resolves. -/
def exCompareReqBad : CompareRequest := { grid := "NoSuchGrid", iterations := 3, episodes := 2 }

/-- Two games as the engine returns them for numTraining = 2, numGames = 0:
the engine plays numTraining + numGames = 2 games, so both are training
games (indices 0 and 1, below numTraining). -/
def exGames : List GameResult :=
  [ { score := 4, isWin := false, isLose := true }
  , { score := 6, isWin := true, isLose := false } ]

/-! Helper lemmas shared by the claim theorems. -/

/-- The `start_qlearning` episode loop always breaks out within 102 loop
iterations, and its final step counter never exceeds 101: once the counter
reaches 101 the hard-coded `steps > 100` test fires. -/
lemma qlearnLoop_terminates (actionsOf : GwState → List Action)
    (getAct : Nat → GwState → Option Action) (doAct : Nat → Action → GwState × ℚ)
    (α γ : ℚ) :
    ∀ (fuel : Nat) (state : GwState) (steps : Nat) (tot : ℚ) (q : QTable),
      steps ≤ 100 → 102 ≤ fuel + steps →
      episodeDone (qlearnLoop actionsOf getAct doAct α γ state steps tot q fuel) = true ∧
      episodeSteps (qlearnLoop actionsOf getAct doAct α γ state steps tot q fuel) ≤ 101 := by
  intro fuel
  induction fuel with
  | zero => intro state steps tot q h1 h2; omega
  | succ f ih =>
    intro state steps tot q h1 h2
    cases hA : actionsOf state with
    | nil => simp [qlearnLoop, hA, episodeDone, episodeSteps]; omega
    | cons a0 rest =>
      cases hG : getAct steps state with
      | none => simp [qlearnLoop, hA, hG, episodeDone, episodeSteps]; omega
      | some a =>
        by_cases hb : (doAct steps a).1 = GwState.terminal ∨ steps + 1 > 100
        · simp [qlearnLoop, hA, hG, hb, episodeDone, episodeSteps]; omega
        · have hstep : steps + 1 ≤ 100 := by omega
          have := ih (doAct steps a).1 (steps + 1)
            (tot + (doAct steps a).2)
            (qUpdate actionsOf α γ q state a (doAct steps a).1 (doAct steps a).2)
            hstep (by omega)
          simpa [qlearnLoop, hA, hG, hb] using this

/-- The `compare_algorithms` episode loop never breaks out on its own while
the state stays non-terminal and the agent keeps returning an action: there
is no step cap, so with any fuel budget it is still iterating at the end. -/
lemma compareLoop_never_done (actionsOf : GwState → List Action)
    (getAct : Nat → GwState → Option Action) (doAct : Nat → Action → GwState × ℚ)
    (α γ : ℚ) (hget : ∀ n s, (getAct n s).isSome = true)
    (hdo : ∀ n a, (doAct n a).1 ≠ GwState.terminal) :
    ∀ (fuel : Nat) (state : GwState) (steps : Nat) (q : QTable),
      state ≠ GwState.terminal →
      compareLoop actionsOf getAct doAct α γ state steps q fuel = none := by
  intro fuel
  induction fuel with
  | zero => intro state steps q _; rfl
  | succ f ih =>
    intro state steps q hs
    obtain ⟨a, ha⟩ := Option.isSome_iff_exists.mp (hget steps state)
    simp only [compareLoop, if_neg hs, ha]
    exact ih _ _ _ (hdo steps a)

/-- Unfolding `lookupV` over a cons cell. -/
lemma lookupV_cons (p : GwState × ℚ) (tbl : List (GwState × ℚ)) (s : GwState) :
    lookupV (p :: tbl) s = if p.1 = s then p.2 else lookupV tbl s := by
  by_cases h : p.1 = s
  · simp [lookupV, List.find?_cons_of_pos, h]
  · simp [lookupV, List.find?_cons_of_neg, h]

/-- A sweep stores exactly the Bellman backup for the states it enumerates:
the value read for `s` depends only on whether `s` is enumerated, not on the
enumeration order. -/
lemma lookupV_sweep (gw : Gridworld) (γ : ℚ) (V : GwState → ℚ) (s : GwState) :
    ∀ order : List GwState,
      lookupV (sweep gw γ order V) s = if s ∈ order then bellmanV gw γ V s else 0 := by
  intro order
  induction order with
  | nil => simp [sweep, lookupV]
  | cons a rest ih =>
    rw [show sweep gw γ (a :: rest) V
        = (a, bellmanV gw γ V a) :: sweep gw γ rest V from rfl, lookupV_cons]
    by_cases h : a = s
    · subst h
      simp
    · rw [if_neg h, ih]
      by_cases hs : s ∈ rest
      · rw [if_pos hs, if_pos (List.mem_cons_of_mem a hs)]
      · have hno : s ∉ a :: rest := by
          intro hmem
          rcases List.mem_cons.mp hmem with he | hr
          · exact h he.symm
          · exact hs hr
        rw [if_neg hs, if_neg hno]

/-- Value iteration is enumeration-order independent: permuting the state
order used within the sweeps changes no value. -/
lemma viIterate_perm (gw : Gridworld) (γ : ℚ) (o1 o2 : List GwState)
    (hperm : o1.Perm o2) :
    ∀ (k : Nat) (s : GwState),
      lookupV (viIterate gw γ o1 k) s = lookupV (viIterate gw γ o2 k) s := by
  intro k
  induction k with
  | zero => intro s; rfl
  | succ n ih =>
    intro s
    have hV : lookupV (viIterate gw γ o1 n) = lookupV (viIterate gw γ o2 n) :=
      funext ih
    have e1 : viIterate gw γ o1 (n + 1)
        = sweep gw γ o1 (lookupV (viIterate gw γ o1 n)) := rfl
    have e2 : viIterate gw γ o2 (n + 1)
        = sweep gw γ o2 (lookupV (viIterate gw γ o2 n)) := rfl
    rw [e1, e2, lookupV_sweep, lookupV_sweep, hV]
    by_cases hs : s ∈ o1
    · rw [if_pos hs, if_pos (hperm.mem_iff.mp hs)]
    · rw [if_neg hs, if_neg (fun h => hs (hperm.mem_iff.mpr h))]

/-- Order independence at the level of the final value function. -/
lemma viValue_perm (gw : Gridworld) (γ : ℚ) (o1 o2 : List GwState) (k : Nat)
    (hperm : o1.Perm o2) : viValue gw γ o1 k = viValue gw γ o2 k := by
  funext s
  exact viIterate_perm gw γ o1 o2 hperm k s

/-- A left fold of max over a list of zeros starting at 0 stays 0. -/
lemma foldl_max_zero : ∀ l : List ℚ, (∀ x ∈ l, x = 0) → l.foldl max 0 = 0 := by
  intro l
  induction l with
  | nil => intro _; rfl
  | cons a rest ih =>
    intro h
    have ha : a = 0 := h a (List.mem_cons_self a rest)
    show rest.foldl max (max 0 a) = 0
    rw [ha, max_self]
    exact ih (fun x hx => h x (List.mem_cons_of_mem a hx))

/-- The maximum of a list of zeros is 0. -/
lemma listMax_zero (l : List ℚ) (h : ∀ x ∈ l, x = 0) : listMax l = 0 := by
  cases l with
  | nil => rfl
  | cons a rest =>
    have ha : a = 0 := h a (List.mem_cons_self a rest)
    show rest.foldl max a = 0
    rw [ha]
    exact foldl_max_zero rest (fun x hx => h x (List.mem_cons_of_mem a hx))

/-- The key list of a policy map built by guarded insertion (an entry exactly
when the greedy-action query returned an action) is the key-rendering of the
states whose query succeeded. -/
lemma filterMap_pair_keys (f : GwState → Option Action) (key : GwState → String) :
    ∀ l : List GwState,
      (l.filterMap (fun s => (f s).map (fun a => (key s, a)))).map Prod.fst
        = (l.filter (fun s => (f s).isSome)).map key := by
  intro l
  induction l with
  | nil => rfl
  | cons x xs ih =>
    cases hfx : f x with
    | none => simp [List.filterMap_cons, List.filter_cons, hfx, ih]
    | some a => simp [List.filterMap_cons, List.filter_cons, hfx, ih]

/-- `runGamesModel` splits over list append: the episodes after a prefix act
on the tables the prefix accumulated. -/
lemma runGamesModel_append :
    ∀ (pre rest : List EpisodeRun) (q : QTable),
      runGamesModel (pre ++ rest) q = runGamesModel rest (runGamesModel pre q) := by
  intro pre
  induction pre with
  | nil => intro rest q; rfl
  | cons e pre ih =>
    intro rest q
    cases e with
    | ok f => simp [runGamesModel, ih]
    | crash => simp [runGamesModel, ih]

/-- The episode indices a record-and-fold training run stores are exactly the
filter of the episode range by the recording predicate, whatever the episode
updates do to the Q-table. -/
lemma foldl_record_indices (u : Nat → QTable → ℚ × Nat × QTable) (p : Nat → Bool) :
    ∀ (l : List Nat) (q : QTable) (acc : List (Nat × ℚ × Nat)),
      ((l.foldl (fun st ep =>
          let res := u ep st.1
          (res.2.2, if p ep then st.2 ++ [(ep, res.1, res.2.1)] else st.2)) (q, acc)).2).map
            (fun t => t.1)
        = acc.map (fun t => t.1) ++ l.filter p := by
  intro l
  induction l with
  | nil => intro q acc; simp
  | cons ep rest ih =>
    intro q acc
    by_cases hp : p ep
    · simp only [List.foldl_cons, List.filter_cons, hp, if_pos, ite_true]
      rw [ih]
      simp [hp]
    · simp only [List.foldl_cons, List.filter_cons, hp, ite_false]
      rw [ih]
      simp [hp]

/-! Claim theorems. -/

/-- C1, counterexample.  The claim says every Q-learning training-episode
loop ends on the terminal state or on a caller-provided step cap, and that no
episode loop runs without a step bound.  At this concrete input — the agent
always proposing an action and every transition landing in the non-terminal
cell (0, 0), a trace the noisy gridworld can produce — the
`compare_algorithms` episode loop is still iterating after 101 steps: it
carries no step bound at all.  The `start_qlearning` loop on the same trace
stops only at step 101, by the hard-coded literal 100, which no request field
feeds: the cap is not caller-provided. -/
theorem episode_loop_unbounded_cex :
    (compareLoop act1 get1 do1 (1/2) (9/10) (GwState.cell 0 0) 0 initialQ 101).isNone = true ∧
    episodeDone (qlearnLoop act1 get1 do1 (1/2) (9/10) (GwState.cell 0 0) 0 0 initialQ 102) = true ∧
    episodeSteps (qlearnLoop act1 get1 do1 (1/2) (9/10) (GwState.cell 0 0) 0 0 initialQ 102) = 101 :=
  ⟨by decide, by decide, by decide⟩

/-- C1 (amended): the `start_qlearning` episode loop always terminates, but
under a hard-coded bound — whatever the oracles do, it breaks out within 102
iterations and its step counter never exceeds 101, because the literal
`steps > 100` test fires; the request supplies no step-cap parameter, so the
bound is not caller-overridable.  The `compare_algorithms` episode loop has
no step bound: while the state stays non-terminal and the agent keeps
returning an action it is still iterating when any fuel budget runs out,
terminating only on the terminal state or on a missing action. -/
theorem episode_loops_step_cap_amended
    (actionsOf cActionsOf : GwState → List Action)
    (getAct cGetAct : Nat → GwState → Option Action)
    (doAct cDoAct : Nat → Action → GwState × ℚ)
    (α γ tot cα cγ : ℚ) (q cq : QTable) (state cstate : GwState)
    (steps fuel csteps cfuel : Nat)
    (hsteps : steps ≤ 100) (hfuel : 102 ≤ fuel + steps)
    (hc : cstate ≠ GwState.terminal)
    (hget : ∀ n s, (cGetAct n s).isSome = true)
    (hdo : ∀ n a, (cDoAct n a).1 ≠ GwState.terminal) :
    episodeDone (qlearnLoop actionsOf getAct doAct α γ state steps tot q fuel) = true ∧
    episodeSteps (qlearnLoop actionsOf getAct doAct α γ state steps tot q fuel) ≤ 101 ∧
    compareLoop cActionsOf cGetAct cDoAct cα cγ cstate csteps cq cfuel = none := by
  obtain ⟨h1, h2⟩ :=
    qlearnLoop_terminates actionsOf getAct doAct α γ fuel state steps tot q hsteps hfuel
  exact ⟨h1, h2,
    compareLoop_never_done cActionsOf cGetAct cDoAct cα cγ hget hdo cfuel cstate csteps cq hc⟩

/-- C1, witness: the amended theorem applied at the concrete oracles. -/
theorem episode_loops_step_cap_amended_witness :
    episodeDone (qlearnLoop act1 get1 do1 (1/2) (9/10) (GwState.cell 0 0) 0 0 initialQ 102) = true ∧
    episodeSteps (qlearnLoop act1 get1 do1 (1/2) (9/10) (GwState.cell 0 0) 0 0 initialQ 102) ≤ 101 ∧
    compareLoop act1 get1 do1 (1/2) (9/10) (GwState.cell 0 0) 0 initialQ 3 = none :=
  episode_loops_step_cap_amended act1 act1 get1 get1 do1 do1 (1/2) (9/10) 0 (1/2) (9/10)
    initialQ initialQ (GwState.cell 0 0) (GwState.cell 0 0) 0 102 0 3
    (by decide) (by decide) (by decide) (fun _ _ => rfl)
    (fun _ _ h => GwState.noConfusion h)

/-- C2: for a fixed grid name, discount, iteration count, noise and living
reward, the value-iteration solve endpoint returns identical value tables,
Q-tables and greedy policies across runs — the only thing that could vary
between two runs with the same request is the agent's internal state
enumeration order, and permuting it changes nothing in the response. -/
theorem value_iteration_deterministic (gridTable : GridTable)
    (o1 o2 : List GwState) (req : VIRequest) (hperm : o1.Perm o2) :
    run_value_iteration gridTable o1 req = run_value_iteration gridTable o2 req := by
  unfold run_value_iteration
  cases h : gridTable req.grid with
  | none => rfl
  | some mk =>
    have hV := viValue_perm (mk req.noise req.livingReward) req.discount o1 o2
      req.iterations hperm
    simp only [viValuesInternal, viQValuesInternal, viPolicy, viGetAction, hV]

/-- C2, witness: the determinism theorem applied at the fixture grid with two
swapped enumeration orders. -/
theorem value_iteration_deterministic_witness :
    run_value_iteration exGridTable [GwState.cell 0 0, GwState.cell 1 0] exVIReq
      = run_value_iteration exGridTable [GwState.cell 1 0, GwState.cell 0 0] exVIReq :=
  value_iteration_deterministic exGridTable _ _ exVIReq (List.Perm.swap _ _ _)

/-- C3: an unknown grid or layout name makes every handler — solve, train,
Pacman run, compare — return the structured 404 failure (kind and message)
immediately, straight from the name lookup: the error constructor carries no
tables, so no partial results accompany it, and the ok branch holding all the
computation is never entered. -/
theorem unknown_name_rejected (gridTable : GridTable) (layoutTable : LayoutTable)
    (order : List GwState) (getAct : Nat → Nat → GwState → Option Action)
    (doAct : Nat → Nat → Action → GwState × ℚ) (start : GwState)
    (engine : RunGamesArgs → List GameResult) (defNoise defLiving : ℚ) (fuel : Nat)
    (reqV : VIRequest) (reqQ : QLRequest) (reqP : PacmanRequest) (reqC : CompareRequest)
    (hV : gridTable reqV.grid = none) (hQ : gridTable reqQ.grid = none)
    (hP : layoutTable reqP.layout = none) (hC : gridTable reqC.grid = none) :
    run_value_iteration gridTable order reqV
      = .error ⟨404, "Grid " ++ reqV.grid ++ " not found"⟩ ∧
    start_qlearning gridTable getAct doAct start reqQ
      = .error ⟨404, "Grid " ++ reqQ.grid ++ " not found"⟩ ∧
    run_pacman_game layoutTable engine reqP
      = .error ⟨404, "Layout " ++ reqP.layout ++ " not found"⟩ ∧
    compare_algorithms gridTable defNoise defLiving order getAct doAct start fuel reqC
      = .error ⟨404, "Grid " ++ reqC.grid ++ " not found"⟩ := by
  refine ⟨?_, ?_, ?_, ?_⟩
  · unfold run_value_iteration; rw [hV]
  · unfold start_qlearning; rw [hQ]
  · unfold run_pacman_game; rw [hP]
  · unfold compare_algorithms; rw [hC]

/-- C3, witness: the rejection theorem applied at tables that resolve no
name. -/
theorem unknown_name_rejected_witness :
    run_value_iteration noneGridTable [] exVIReqBad
      = .error ⟨404, "Grid " ++ exVIReqBad.grid ++ " not found"⟩ ∧
    start_qlearning noneGridTable get2 do2 (GwState.cell 0 0) exQLReqBad
      = .error ⟨404, "Grid " ++ exQLReqBad.grid ++ " not found"⟩ ∧
    run_pacman_game noneLayoutTable (fun _ => exGames) exPacReqBad
      = .error ⟨404, "Layout " ++ exPacReqBad.layout ++ " not found"⟩ ∧
    compare_algorithms noneGridTable 0 0 [] get2 do2 (GwState.cell 0 0) 5 exCompareReqBad
      = .error ⟨404, "Grid " ++ exCompareReqBad.grid ++ " not found"⟩ :=
  unknown_name_rejected noneGridTable noneLayoutTable [] get2 do2 (GwState.cell 0 0)
    (fun _ => exGames) 0 0 5 exVIReqBad exQLReqBad exPacReqBad exCompareReqBad
    rfl rfl rfl rfl

/-- C4: a Q-learning training run requested with 0 episodes leaves the
Q-table at its all-zero default — the training fold never runs, so the final
table is `initialQ`, every queried entry is 0, and every reported state value
(the max of the Q-row, as `start_qlearning` computes it, before and after
string-key serialization) is 0. -/
theorem zero_episodes_qtable_default
    (actionsOf : GwState → List Action) (getAct : Nat → Nat → GwState → Option Action)
    (doAct : Nat → Nat → Action → GwState × ℚ) (α γ : ℚ) (start : GwState)
    (gw : Gridworld) (s : GwState) (a : Action) (episodes : Nat)
    (h : episodes = 0) :
    (qlearnRun actionsOf getAct doAct α γ start episodes).1 = initialQ ∧
    (qlearnRun actionsOf getAct doAct α γ start episodes).1 s a = 0 ∧
    (qlValuesInternal gw (qlearnRun actionsOf getAct doAct α γ start episodes).1).all
      (fun p => p.2 = 0) = true ∧
    (serializeValues
        (qlValuesInternal gw (qlearnRun actionsOf getAct doAct α γ start episodes).1)).all
      (fun p => p.2 = 0) = true := by
  subst h
  have h3 : (qlValuesInternal gw initialQ).all (fun p => p.2 = 0) = true := by
    rw [List.all_eq_true]
    intro p hp
    rw [qlValuesInternal, List.mem_map] at hp
    obtain ⟨t, _, rfl⟩ := hp
    simp only [decide_eq_true_eq]
    refine listMax_zero _ ?_
    intro x hx
    rw [List.mem_map] at hx
    obtain ⟨b, _, rfl⟩ := hx
    rfl
  have h4 : (serializeValues (qlValuesInternal gw initialQ)).all
      (fun p => p.2 = 0) = true := by
    rw [List.all_eq_true]
    intro p hp
    rw [serializeValues, List.mem_map] at hp
    obtain ⟨r, hr, rfl⟩ := hp
    simp only [decide_eq_true_eq]
    exact decide_eq_true_eq.mp (List.all_eq_true.mp h3 r hr)
  exact ⟨rfl, rfl, h3, h4⟩

/-- C4, witness: the zero-episode theorem applied at the fixture gridworld. -/
theorem zero_episodes_qtable_default_witness :
    (qlearnRun exActions get2 do2 (1/2) (9/10) (GwState.cell 0 0) 0).1 = initialQ ∧
    (qlearnRun exActions get2 do2 (1/2) (9/10) (GwState.cell 0 0) 0).1
      (GwState.cell 0 0) "east" = 0 ∧
    (qlValuesInternal exGw (qlearnRun exActions get2 do2 (1/2) (9/10) (GwState.cell 0 0) 0).1).all
      (fun p => p.2 = 0) = true ∧
    (serializeValues
        (qlValuesInternal exGw
          (qlearnRun exActions get2 do2 (1/2) (9/10) (GwState.cell 0 0) 0).1)).all
      (fun p => p.2 = 0) = true :=
  zero_episodes_qtable_default exActions get2 do2 (1/2) (9/10) (GwState.cell 0 0)
    exGw (GwState.cell 0 0) "east" 0 rfl

/-- C5, counterexample.  The claim says the stop-or-continue policy on an
engine failure is caller-configurable, exposed as a configuration option.  At
this concrete request — which carries an explicit attempt to turn the
catch-exceptions behavior off — the `runGames` call still receives the
hard-coded `catchExceptions=True`: no request field reaches that argument. -/
theorem catch_exceptions_hardcoded_cex :
    exPacReq.catchExceptions = some false ∧
    (runGamesArgsOf exPacReq).catchExceptions = true :=
  ⟨rfl, rfl⟩

/-- C5 (amended): an engine failure mid-episode does not corrupt the
Q-table/weights accumulated over already-completed episodes — the crashed
episode is abandoned and the run continues with the remaining episodes from
the tables the completed prefix produced — but this catch-and-continue
behavior is hard-coded (`catchExceptions=True` at the `runGames` call site)
rather than exposed as a caller-configurable option. -/
theorem engine_failure_isolated_amended (req : PacmanRequest)
    (pre rest : List EpisodeRun) (q : QTable) :
    (runGamesArgsOf req).catchExceptions = true ∧
    runGamesModel (pre ++ EpisodeRun.crash :: rest) q
      = runGamesModel rest (runGamesModel pre q) := by
  constructor
  · rfl
  · rw [runGamesModel_append]
    rfl

/-- C6: a state with no legal actions makes the greedy-action queries of both
agents return none rather than raise, and no such state generates a policy
entry: the solve policy map is keyed exactly by the states whose
greedy-action query returned an action (which an action-less state never
does), and the train policy map exactly by the non-terminal states with a
nonempty action set. -/
theorem no_action_state_returns_none (gw : Gridworld) (γ : ℚ)
    (order : List GwState) (k : Nat) (q : QTable) (s : GwState)
    (h : gw.actions s = []) :
    viGetAction gw γ order k s = none ∧
    qGetPolicy gw.actions q s = none ∧
    (viPolicy gw γ order k).map Prod.fst
      = ((nonTerminalStates gw).filter
          (fun t => (viGetAction gw γ order k t).isSome)).map stateToString ∧
    decide (s ∈ (nonTerminalStates gw).filter
      (fun t => (viGetAction gw γ order k t).isSome)) = false ∧
    (qlPolicy gw q).map Prod.fst
      = ((nonTerminalStates gw).filter (fun t => gw.actions t ≠ [])).map stateToString ∧
    decide (s ∈ (nonTerminalStates gw).filter (fun t => gw.actions t ≠ [])) = false := by
  have h1 : viGetAction gw γ order k s = none := by
    rw [viGetAction, h]; rfl
  have h2 : qGetPolicy gw.actions q s = none := by
    rw [qGetPolicy, h]; rfl
  refine ⟨h1, h2, filterMap_pair_keys _ _ _, ?_, ?_, ?_⟩
  · rw [decide_eq_false_iff_not]
    intro hmem
    have := (List.mem_filter.mp hmem).2
    rw [h1] at this
    exact Bool.noConfusion this
  · rw [qlPolicy, List.map_map]; rfl
  · rw [decide_eq_false_iff_not]
    intro hmem
    have := (List.mem_filter.mp hmem).2
    simp [h] at this

/-- C6, witness: the no-action theorem applied at the fixture gridworld's
degenerate cell (9, 9), which has no legal actions. -/
theorem no_action_state_returns_none_witness :
    viGetAction exGw (9/10) [GwState.cell 0 0, GwState.cell 1 0] 3 (GwState.cell 9 9) = none ∧
    qGetPolicy exGw.actions initialQ (GwState.cell 9 9) = none ∧
    (viPolicy exGw (9/10) [GwState.cell 0 0, GwState.cell 1 0] 3).map Prod.fst
      = ((nonTerminalStates exGw).filter
          (fun t => (viGetAction exGw (9/10) [GwState.cell 0 0, GwState.cell 1 0] 3 t).isSome)).map
            stateToString ∧
    decide (GwState.cell 9 9 ∈ (nonTerminalStates exGw).filter
      (fun t => (viGetAction exGw (9/10) [GwState.cell 0 0, GwState.cell 1 0] 3 t).isSome)) = false ∧
    (qlPolicy exGw initialQ).map Prod.fst
      = ((nonTerminalStates exGw).filter (fun t => exGw.actions t ≠ [])).map stateToString ∧
    decide (GwState.cell 9 9 ∈ (nonTerminalStates exGw).filter
      (fun t => exGw.actions t ≠ [])) = false :=
  no_action_state_returns_none exGw (9/10) [GwState.cell 0 0, GwState.cell 1 0] 3
    initialQ (GwState.cell 9 9) rfl

/-- C7: every table the solve and train endpoints hand back is keyed by
strings rendered from the structured keys, never by composite tuple keys —
the serialized value tables and policy maps are keyed by the
string-rendering of the enumerated states, and the per-state qValues maps of
the grid data are keyed by action strings drawn from the state's legal-action
set. -/
theorem returned_tables_string_keyed (gw : Gridworld) (γ : ℚ) (order : List GwState)
    (k : Nat) (q : QTable) (tbl : List ((GwState × Action) × ℚ)) :
    (serializeValues (viValuesInternal gw γ order k)).map Prod.fst
      = (nonTerminalStates gw).map stateToString ∧
    (viPolicy gw γ order k).map Prod.fst
      = ((nonTerminalStates gw).filter
          (fun s => (viGetAction gw γ order k s).isSome)).map stateToString ∧
    (serializeValues (qlValuesInternal gw q)).map Prod.fst
      = ((nonTerminalStates gw).filter (fun s => gw.actions s ≠ [])).map stateToString ∧
    (qlPolicy gw q).map Prod.fst
      = ((nonTerminalStates gw).filter (fun s => gw.actions s ≠ [])).map stateToString ∧
    (serializeQValues gw tbl).all
      (fun sq => (sq.2.map Prod.fst).all (fun a => a ∈ gw.actions sq.1)) = true := by
  refine ⟨?_, filterMap_pair_keys _ _ _, ?_, ?_, ?_⟩
  · rw [serializeValues, viValuesInternal, List.map_map, List.map_map]; rfl
  · rw [serializeValues, qlValuesInternal, List.map_map, List.map_map]; rfl
  · rw [qlPolicy, List.map_map]; rfl
  · rw [List.all_eq_true]
    intro sq hsq
    rw [serializeQValues, List.mem_map] at hsq
    obtain ⟨s, _, rfl⟩ := hsq
    rw [List.all_eq_true]
    intro a ha
    rw [List.mem_map] at ha
    obtain ⟨⟨a2, v⟩, hav, rfl⟩ := ha
    rw [List.mem_filterMap] at hav
    obtain ⟨b, hb, hbe⟩ := hav
    rw [Option.map_eq_some'] at hbe
    obtain ⟨w, _, hw⟩ := hbe
    have hba : b = a2 := congrArg Prod.fst hw
    subst hba
    exact decide_eq_true hb

/-- C8, counterexample.  The claim says the reported summary is computed only
over evaluation games and that training games are excluded.  At the concrete
input numTraining = 2, numGames = 0 the engine plays 2 games, both training
games (indices 0 and 1, below numTraining); the post-training slice is empty,
yet the summary is computed over the two training games: it reports a win and
an average score of 5, not the empty-slice values. -/
theorem summary_includes_training_games_cex :
    exGames.drop 2 = [] ∧
    test_games exGames 2 = exGames ∧
    (summaryOf exGames 2).wins = 1 ∧
    (summaryOf exGames 2).avgScore = 5 :=
  ⟨rfl, by decide, by decide, by norm_num [summaryOf, test_games, exGames]⟩

/-- C8 (amended): the summary is computed over the games after the first
numTraining ones whenever the engine returns more than numTraining games;
when it returns no more than numTraining games (as with numGames = 0), the
summary falls back to all played games, training games included. -/
theorem summary_slice_amended (games games2 : List GameResult) (n n2 : Nat)
    (h : n < games.length) (h2 : games2.length ≤ n2) :
    test_games games n = games.drop n ∧
    (summaryOf games n).wins = ((games.drop n).filter (fun g => g.isWin)).length ∧
    (summaryOf games n).losses = ((games.drop n).filter (fun g => g.isLose)).length ∧
    test_games games2 n2 = games2 := by
  have ht : test_games games n = games.drop n := by
    rw [test_games, if_pos h]
  refine ⟨ht, ?_, ?_, ?_⟩
  · simp only [summaryOf, ht]
  · simp only [summaryOf, ht]
  · rw [test_games, if_neg (by omega)]

/-- C8, witness: the amended theorem applied at the two-game fixture, once
with numTraining = 1 (a nonempty evaluation slice) and once with
numTraining = 2 (the fallback). -/
theorem summary_slice_amended_witness :
    test_games exGames 1 = exGames.drop 1 ∧
    (summaryOf exGames 1).wins = ((exGames.drop 1).filter (fun g => g.isWin)).length ∧
    (summaryOf exGames 1).losses = ((exGames.drop 1).filter (fun g => g.isLose)).length ∧
    test_games exGames 2 = exGames :=
  summary_slice_amended exGames exGames 1 2 (by decide) (by decide)

/-- C9: the training-history sampling modulus max(1, episodes // 20) is at
least 1 for every episode count — the recording test never takes a modulo by
zero — and for every episode count below 40 the modulus is 1, so the
recording test accepts every episode and the training history of the run
carries one record (episode index, total reward, step count) for each of the
episodes, in order. -/
theorem sampling_modulus_safe (actionsOf : GwState → List Action)
    (getAct : Nat → Nat → GwState → Option Action)
    (doAct : Nat → Nat → Action → GwState × ℚ) (α γ : ℚ) (start : GwState)
    (M N : Nat) (h : N < 40) :
    1 ≤ sampleModulus M ∧
    sampleModulus N = 1 ∧
    trainingHistoryIndices N = List.range N ∧
    ((qlearnRun actionsOf getAct doAct α γ start N).2).map (fun t => t.1)
      = List.range N := by
  have hmod : sampleModulus N = 1 := by
    have h20 : N / 20 ≤ 1 := by omega
    exact Nat.max_eq_left h20
  have hrec : ∀ ep, recordEpisode N ep = true := by
    intro ep
    rw [recordEpisode, hmod]
    simp [Nat.mod_one]
  have hfilter : (List.range N).filter (recordEpisode N) = List.range N :=
    List.filter_eq_self.mpr (fun a _ => hrec a)
  refine ⟨Nat.le_max_left 1 (M / 20), hmod, hfilter, ?_⟩
  have hfold := foldl_record_indices
    (fun ep q => qlearnEpisode actionsOf (getAct ep) (doAct ep) α γ start q)
    (recordEpisode N) (List.range N) initialQ []
  simp only [List.map_nil, List.nil_append] at hfold
  rw [hfilter] at hfold
  exact hfold

/-- C9, witness: the sampling theorem applied at 39 requested episodes and at
modulus argument 7. -/
theorem sampling_modulus_safe_witness :
    1 ≤ sampleModulus 7 ∧
    sampleModulus 39 = 1 ∧
    trainingHistoryIndices 39 = List.range 39 ∧
    ((qlearnRun exActions get2 do2 (1/2) (9/10) (GwState.cell 0 0) 39).2).map
      (fun t => t.1) = List.range 39 :=
  sampling_modulus_safe exActions get2 do2 (1/2) (9/10) (GwState.cell 0 0) 7 39
    (by decide)

/-- C10: when the evaluation slice of a Pacman run is empty the reported
average score is 0 rather than a division by zero, and whenever the engine
returns no more games than numTraining the summary slice falls back to all
played games rather than the empty post-training slice. -/
theorem empty_eval_summary_safe (games games2 : List GameResult) (n n2 : Nat)
    (h : test_games games n = []) (h2 : games2.length ≤ n2) :
    (summaryOf games n).avgScore = 0 ∧
    test_games games2 n2 = games2 := by
  constructor
  · simp only [summaryOf, h, List.isEmpty_nil, if_pos]
  · rw [test_games, if_neg (by omega)]

/-- C10, witness: the safety theorem applied at an empty game list and at the
two-game fixture with numTraining = 5. -/
theorem empty_eval_summary_safe_witness :
    (summaryOf [] 0).avgScore = 0 ∧
    test_games exGames 5 = exGames :=
  empty_eval_summary_safe [] exGames 0 5 rfl (by decide)

end AiPacman
